import Mathlib

/-!
Verification of the FindMyCat client (src/FindMyCatClient/findmycat_client.py).

The development shallowly embeds the change-detection and delivery core of the
client: the per-device cursor table (`last_seen`), the classification loop of
`process_locations`, the single/batch delivery paths, the single-cycle driver
`run_once`, the failure accounting of `run_continuous`, the pairing flow of
`main`, and the request-timeout behaviour of the `requests` session.

Conventions of the embedding:
- Python dict lookups with default 0 (`self.last_seen.get(device_id, 0)`) are
  modelled by a total function `String → Int`; the initial table is the
  constant 0, so "absent" and "0" coincide, exactly as observed by the code.
- Latitude/longitude are floats the code never computes with; they are carried
  as opaque `Int` values. The ISO time string derived from the timestamp is an
  opaque `String` carried alongside, as produced by `fetch_locations`.
- HTTP interaction is modelled by the response the environment supplies for the
  one request a code path performs: either an exception from the `requests`
  library (connection failure, and — in requests ≥ 2.27 — a JSON decode
  failure, both `requests.RequestException` and caught by the code), or a
  status code with an optionally-parsable body.
- Exceptions that escape a Python function are modelled explicitly (a `raised`
  flag, or dedicated constructors); exceptions the code catches are folded into
  the returned value as the handler dictates.
-/

namespace FindMyCat

/-- One row produced by `fetch_locations` (lines 63-107): a tuple
`(device_id, lat, lon, ts, iso_time)`. Coordinates are opaque carried values;
`timestamp` is epoch milliseconds; `isoTime` is the ISO-8601 string derived
from the timestamp. -/
structure Observation where
  deviceId : String
  latitude : Int
  longitude : Int
  timestamp : Int
  isoTime : String
deriving DecidableEq, Repr

/-- The update dict built at lines 178-183: note the `"timestamp"` field holds
the ISO string `iso_time`, not the integer timestamp. -/
structure UpdatePayload where
  deviceId : String
  latitude : Int
  longitude : Int
  timestamp : String
deriving DecidableEq, Repr

/-- Lines 178-183: the payload appended to `new_updates` for a new
observation. -/
def payloadOf (o : Observation) : UpdatePayload :=
  { deviceId := o.deviceId
    latitude := o.latitude
    longitude := o.longitude
    timestamp := o.isoTime }

/-- The per-device cursor table `self.last_seen : Dict[str, int]`. The code
reads it only through `.get(device_id, 0)`, so it is modelled as a total map
with 0 standing for an absent device; the table of a fresh client is the
constant 0. -/
abbrev Cursor := String → Int

/-- Python dict assignment `self.last_seen[device_id] = timestamp`
(line 184). -/
def updateCursor (t : Cursor) (d : String) (v : Int) : Cursor :=
  fun x => if x = d then v else t x

/-- The classification loop of `process_locations` (lines 171-188): walk the
observations in source order; an observation strictly newer than the cursor
entry for its device is appended to `new_updates` and the cursor entry is set
to its timestamp immediately; otherwise it is dropped and the table is left
unchanged. Returns the final table and `new_updates` in order. -/
def process_loop : Cursor → List Observation → Cursor × List UpdatePayload
  | t, [] => (t, [])
  | t, o :: rest =>
    if t o.deviceId < o.timestamp then
      let t1 := updateCursor t o.deviceId o.timestamp
      let r := process_loop t1 rest
      (r.1, payloadOf o :: r.2)
    else
      process_loop t rest

/-- The outcome of one HTTP request, as seen by the calling code. `exc` is a
`requests.RequestException` raised by `session.post`/`session.get` or by
`response.json()` (requests ≥ 2.27 raises its own `JSONDecodeError`, a
`RequestException` subclass); `resp status body` is a completed response,
where `body = none` means the body is not parsable JSON. -/
inductive HttpResult (β : Type) where
  | exc : HttpResult β
  | resp : Nat → Option β → HttpResult β
deriving DecidableEq, Repr

/-- The JSON body consulted by `send_location_update` (lines 130-137):
`result.get("success")` (absent key → falsy) and `result.get("isNew", False)`.
Fields are `Option Bool`; Python truthiness of the looked-up value is
`Option.getD _ false`. -/
structure SingleBody where
  success : Option Bool
  isNew : Option Bool
deriving DecidableEq, Repr

/-- The JSON body consulted for a batch response (lines 209-210):
`result.get("success")`, and the bracket accesses `result["processed"]`,
`result["newLocations"]` which raise `KeyError` when the key is absent. -/
structure BatchBody where
  success : Option Bool
  processed : Option Int
  newLocations : Option Int
deriving DecidableEq, Repr

/-- `FindMyCatClient.send_location_update` (lines 109-144). Returns the
Python `Optional[bool]`: `some true` = server stored a new point, `some false`
= duplicate/old, `none` = network/server error. A non-200 status, a falsy
`success` flag, an unparsable body, and a request exception all yield
`none`. -/
def send_location_update (r : HttpResult SingleBody) : Option Bool :=
  match r with
  | .exc => none
  | .resp status body =>
    if status = 200 then
      match body with
      | none => none
      | some result =>
        if result.success.getD false then
          some (result.isNew.getD false)
        else
          none
    else
      none

/-- `FindMyCatClient.send_batch_update` (lines 146-163). Returns the parsed
response dict on HTTP 200, `none` on a non-200 status or a request
exception (an unparsable 200 body raises during `response.json()`, which the
`except requests.RequestException` clause catches, also yielding `none`). -/
def send_batch_update (r : HttpResult BatchBody) : Option BatchBody :=
  match r with
  | .exc => none
  | .resp status body =>
    if status = 200 then
      match body with
      | none => none
      | some b => some b
    else
      none

/-- A network request issued by `process_locations`: the single-update path
(`POST /api/locations/update`, lines 194-199) or the batch path
(`POST /api/locations/batch-update`, line 208) carrying the full
`new_updates` list. -/
inductive NetCall where
  | single : UpdatePayload → NetCall
  | batch : List UpdatePayload → NetCall
deriving DecidableEq, Repr

/-- Observable result of `process_locations`: the cursor table after the call
(the mutated `self.last_seen`), the network requests issued, and whether an
exception escaped the function (`raised`; see `process_locations`). -/
structure ProcResult where
  last_seen : Cursor
  calls : List NetCall
  raised : Bool

/-- `FindMyCatClient.process_locations` (lines 165-214). Classifies the input
rows against the cursor table via `process_loop`, then delivers: no new
updates → no request; exactly one → the single path; more than one → the
batch path with the full list. `raised` records the one way the function can
raise: on a batch response that is HTTP 200 with a truthy `success` but a
missing `processed` or `newLocations` key, the log f-string at line 210
evaluates `result["processed"]`/`result["newLocations"]` and raises
`KeyError`. Note the cursor table is fully updated by the loop before any
request is issued, and no delivery outcome touches it. -/
def process_locations (t : Cursor) (locations : List Observation)
    (sr : HttpResult SingleBody) (br : HttpResult BatchBody) : ProcResult :=
  if locations.isEmpty then
    { last_seen := t, calls := [], raised := false }
  else
    let r := process_loop t locations
    match r.2 with
    | [] => { last_seen := r.1, calls := [], raised := false }
    | [u] =>
      let _outcome := send_location_update sr
      { last_seen := r.1, calls := [NetCall.single u], raised := false }
    | us =>
      let result := send_batch_update br
      let raised :=
        match result with
        | some b => b.success.getD false && (b.processed.isNone || b.newLocations.isNone)
        | none => false
      { last_seen := r.1, calls := [NetCall.batch us], raised := raised }

/-- Outcome of `os.path.getmtime(DB_PATH)` at line 220: the mtime, a
`FileNotFoundError` (caught at line 234), or any other exception (caught by
the generic handler at line 238). The mtime is a float used only for ordering
comparisons; it is carried as `Int`. -/
inductive MtimeResult where
  | fileNotFound : MtimeResult
  | otherError : MtimeResult
  | ok : Int → MtimeResult
deriving DecidableEq, Repr

/-- Outcome of reading and decoding the cache file inside `fetch_locations`
(lines 65-81): `FileNotFoundError`, `PermissionError`,
`json.JSONDecodeError`, or any other exception — each caught, logged and
turned into an empty row list — or a successful read. The row-extraction of
lines 83-107 is the platform cache parsing the design treats as an external
collaborator; `ok` carries the extracted rows directly. -/
inductive FetchResult where
  | fileNotFound : FetchResult
  | permissionError : FetchResult
  | jsonDecodeError : FetchResult
  | otherError : FetchResult
  | ok : List Observation → FetchResult
deriving DecidableEq, Repr

/-- `FindMyCatClient.fetch_locations` (lines 63-107): every read/parse error
is caught and yields `[]`; a successful read yields the extracted rows. -/
def fetch_locations : FetchResult → List Observation
  | .fileNotFound => []
  | .permissionError => []
  | .jsonDecodeError => []
  | .otherError => []
  | .ok rows => rows

/-- The mutable client state touched by a cycle: `self.last_mtime` (the cache
snapshot cursor, `None` until first observed) and `self.last_seen`. -/
structure ClientState where
  last_mtime : Option Int
  last_seen : Cursor

/-- The condition at line 222:
`self.last_mtime is None or current_mtime > self.last_mtime`. -/
def mtimeAdvanced (last : Option Int) (cur : Int) : Bool :=
  match last with
  | none => true
  | some m => m < cur

/-- Observable result of `run_once`: the client state after the call, the
returned boolean, and the network requests issued. `run_once` wraps its whole
body in `try`/`except Exception`, so no exception propagates out of it; an
internal exception surfaces only as a `False` return (with the state
mutations performed before the raise kept, since the handler does not roll
them back). -/
structure RunOnceResult where
  state : ClientState
  success : Bool
  calls : List NetCall

/-- `FindMyCatClient.run_once` (lines 216-240). On an mtime read error:
`False`, state unchanged. If the marker is newly observed or strictly
greater: record it, fetch, process, and return `True` — unless
`process_locations` raised internally, in which case the generic handler
returns `False` (the already-updated `last_mtime` and `last_seen` persist).
If the marker did not advance: `False`, no fetch, no processing. -/
def run_once (st : ClientState) (mt : MtimeResult) (f : FetchResult)
    (sr : HttpResult SingleBody) (br : HttpResult BatchBody) : RunOnceResult :=
  match mt with
  | .fileNotFound => { state := st, success := false, calls := [] }
  | .otherError => { state := st, success := false, calls := [] }
  | .ok m =>
    if mtimeAdvanced st.last_mtime m then
      let st1 : ClientState := { st with last_mtime := some m }
      let pr := process_locations st1.last_seen (fetch_locations f) sr br
      { state := { st1 with last_seen := pr.last_seen }
        success := !pr.raised
        calls := pr.calls }
    else
      { state := st, success := false, calls := [] }

/-- `max_consecutive_errors = 5` (line 255). -/
def max_consecutive_errors : Nat := 5

/-- State of the monitoring loop in `run_continuous`: the client plus
`consecutive_errors` (line 254). -/
structure LoopState where
  client : ClientState
  consecutive_errors : Nat

/-- What one iteration of the `while True` body at lines 258-275 encounters:
either `run_once` executes against the given environment (then the loop
sleeps), or an `Exception` escapes the cycle body into the handler at
line 266. -/
inductive CycleEvent where
  | run : MtimeResult → FetchResult → HttpResult SingleBody →
      HttpResult BatchBody → CycleEvent
  | raised : CycleEvent

/-- One iteration of the loop body (lines 259-275). Returns the next loop
state and whether the loop continues: a completed `run_once` resets the
counter exactly when it returned `True` (line 261-262) and always continues;
an escaped exception increments the counter and breaks when it has reached
`max_consecutive_errors` (lines 267-272). -/
def loopStep (s : LoopState) : CycleEvent → LoopState × Bool
  | .run mt f sr br =>
    let r := run_once s.client mt f sr br
    ({ client := r.state
       consecutive_errors := if r.success then 0 else s.consecutive_errors },
     true)
  | .raised =>
    let n := s.consecutive_errors + 1
    ({ s with consecutive_errors := n }, decide (n < max_consecutive_errors))

/-- The monitoring loop of `run_continuous` (lines 257-275), driven by a
finite trace of cycle events; folding stops when an iteration breaks. -/
def run_continuous : LoopState → List CycleEvent → LoopState
  | s, [] => s
  | s, e :: rest =>
    let r := loopStep s e
    if r.2 then run_continuous r.1 rest else r.1

/-- The `requests.Session` object as configured by `__init__` (lines 41-42):
the constructor stores 30 into `session.timeout`. -/
structure Session where
  timeoutAttr : Option Nat
deriving DecidableEq, Repr

/-- Timeout actually applied by the `requests` library to a
`session.post`/`session.get` call: only the per-call `timeout=` keyword
argument is consulted; `requests.Session` has no session-level timeout, so an
ad-hoc `timeout` attribute stored on the session object is never read by the
library. -/
def effectiveTimeout (_s : Session) (kw : Option Nat) : Option Nat := kw

/-- The session built in `__init__`: `self.session.timeout = 30`
(line 42). -/
def clientInitSession : Session := { timeoutAttr := some 30 }

/-- Timeout applied to the single-update request: `session.post` at
lines 124-128 passes no `timeout=` keyword. -/
def singleUpdateRequestTimeout : Option Nat :=
  effectiveTimeout clientInitSession none

/-- Timeout applied to the batch-update request: `session.post` at
lines 149-153 passes no `timeout=` keyword. -/
def batchUpdateRequestTimeout : Option Nat :=
  effectiveTimeout clientInitSession none

/-- Timeout applied to the pairing request: `session.post` at lines 352-357
passes `timeout=30` explicitly. -/
def pairingRequestTimeout : Option Nat :=
  effectiveTimeout clientInitSession (some 30)

/-- The JSON body of a pairing response: `data.get("token")` (line 368).
`none` models an absent key; the code's `if not token` also rejects an empty
string. -/
structure PairBody where
  token : Option String
deriving DecidableEq, Repr

/-- The persisted config record written at lines 373-375:
`{"token": token, "server": client.server_url}`. -/
structure PairConfig where
  token : Option String
  server : String
deriving DecidableEq, Repr

/-- Result of the pairing exchange in `main` (lines 348-382). -/
inductive PairOutcome where
  | failed : PairOutcome
  | paired : String → PairOutcome
deriving DecidableEq, Repr

/-- Classification of the pairing response (lines 352-371): a request
exception (caught at line 380), a status other than 200 (line 358), an
unparsable body (lines 362-367), or a missing/falsy token (lines 368-371)
each abort the flow; a 200 response with a non-empty token pairs. -/
def pairing_claim (r : HttpResult PairBody) : PairOutcome :=
  match r with
  | .exc => .failed
  | .resp status body =>
    if status = 200 then
      match body with
      | none => .failed
      | some data =>
        match data.token with
        | none => .failed
        | some t => if t = "" then .failed else .paired t
    else
      .failed

/-- State the pairing flow can mutate: the persisted config file and the
bearer token attached to the session headers. -/
structure PairEffects where
  config : Option PairConfig
  sessionToken : Option String
deriving DecidableEq, Repr

/-- Effect of the pairing flow in `main` (lines 348-382) on the persisted
config and the in-process session token: every failure path returns before
any write, leaving both untouched; on success the config is overwritten with
the token and server (lines 373-375) and the session header is updated
immediately (lines 378-379). -/
def pairing_flow (before : Option PairConfig) (beforeToken : Option String)
    (serverUrl : String) (r : HttpResult PairBody) : PairEffects :=
  match pairing_claim r with
  | .failed => { config := before, sessionToken := beforeToken }
  | .paired t =>
    { config := some { token := some t, server := serverUrl }
      sessionToken := some t }

/-! Helper lemmas about the classification loop. -/

/-- Unfolding lemma for one iteration of the classification loop. -/
theorem process_loop_cons (t : Cursor) (o : Observation) (rest : List Observation) :
    process_loop t (o :: rest) =
      if t o.deviceId < o.timestamp then
        ((process_loop (updateCursor t o.deviceId o.timestamp) rest).1,
         payloadOf o :: (process_loop (updateCursor t o.deviceId o.timestamp) rest).2)
      else
        process_loop t rest := by
  conv_lhs => rw [process_loop]

/-- Pointwise, the cursor written for a device is at least the value read. -/
theorem updateCursor_le (t : Cursor) (dev d : String) (v : Int)
    (h : t dev < v) : t d ≤ updateCursor t dev v d := by
  unfold updateCursor
  by_cases hd : d = dev
  · subst hd
    simp [le_of_lt h]
  · simp [hd]

/-- The cursor table is monotonically non-decreasing across the
classification loop. -/
theorem process_loop_monotone (obs : List Observation) (t : Cursor) (d : String) :
    t d ≤ (process_loop t obs).1 d := by
  induction obs generalizing t with
  | nil => exact le_refl _
  | cons o rest ih =>
    rw [process_loop_cons]
    by_cases h : t o.deviceId < o.timestamp
    · rw [if_pos h]
      exact le_trans (updateCursor_le t o.deviceId d o.timestamp h) (ih _)
    · rw [if_neg h]
      exact ih t

/-- A cursor entry is either untouched by the loop, or was set to the
timestamp of some observation of that device that was strictly newer than
the entry held before the loop ran. -/
theorem process_loop_update_cases (obs : List Observation) (t : Cursor) (d : String) :
    (process_loop t obs).1 d = t d ∨
      ∃ o ∈ obs, o.deviceId = d ∧ (process_loop t obs).1 d = o.timestamp ∧
        t d < o.timestamp := by
  induction obs generalizing t with
  | nil => exact Or.inl rfl
  | cons o rest ih =>
    rw [process_loop_cons]
    by_cases h : t o.deviceId < o.timestamp
    · rw [if_pos h]
      dsimp only
      rcases ih (updateCursor t o.deviceId o.timestamp) with h1 | ⟨a, ha, hdev, heq, hlt⟩
      · by_cases hd : d = o.deviceId
        · subst hd
          refine Or.inr ⟨o, List.mem_cons_self _ _, rfl, ?_, h⟩
          rw [h1]
          simp [updateCursor]
        · refine Or.inl ?_
          rw [h1]
          simp [updateCursor, hd]
      · refine Or.inr ⟨a, List.mem_cons_of_mem _ ha, hdev, heq, ?_⟩
        exact lt_of_le_of_lt (updateCursor_le t o.deviceId d o.timestamp h) hlt
    · rw [if_neg h]
      rcases ih t with h1 | ⟨a, ha, hdev, heq, hlt⟩
      · exact Or.inl h1
      · exact Or.inr ⟨a, List.mem_cons_of_mem _ ha, hdev, heq, hlt⟩

/-- After the loop, the cursor of every presented observation's device is at
least that observation's timestamp (whether it was classified new or
stale). -/
theorem process_loop_covers (obs : List Observation) (t : Cursor) (o : Observation)
    (ho : o ∈ obs) : o.timestamp ≤ (process_loop t obs).1 o.deviceId := by
  induction obs generalizing t with
  | nil => cases ho
  | cons a rest ih =>
    rw [process_loop_cons]
    by_cases h : t a.deviceId < a.timestamp
    · rw [if_pos h]
      dsimp only
      rcases List.mem_cons.mp ho with rfl | ho2
      · have h1 : updateCursor t o.deviceId o.timestamp o.deviceId = o.timestamp := by
          simp [updateCursor]
        calc o.timestamp
            = updateCursor t o.deviceId o.timestamp o.deviceId := h1.symm
          _ ≤ _ := process_loop_monotone rest _ o.deviceId
      · exact ih _ ho2
    · rw [if_neg h]
      rcases List.mem_cons.mp ho with rfl | ho2
      · exact le_trans (not_lt.mp h) (process_loop_monotone rest t o.deviceId)
      · exact ih t ho2

/-- The cursor table `process_locations` leaves behind is exactly the table
computed by the classification loop, for every delivery response. -/
theorem process_locations_last_seen (t : Cursor) (locations : List Observation)
    (sr : HttpResult SingleBody) (br : HttpResult BatchBody) :
    (process_locations t locations sr br).last_seen = (process_loop t locations).1 := by
  cases locations with
  | nil => rfl
  | cons a as =>
    rcases hnu : (process_loop t (a :: as)).2 with _ | ⟨u, _ | ⟨v, us⟩⟩ <;>
      simp [process_locations, hnu]

/-- The requests `process_locations` issues are a function of the
`new_updates` list alone: none when it is empty, the single path for one
element, the batch path carrying the full list otherwise. -/
theorem process_locations_calls (t : Cursor) (locations : List Observation)
    (sr : HttpResult SingleBody) (br : HttpResult BatchBody) :
    (process_locations t locations sr br).calls =
      match (process_loop t locations).2 with
      | [] => []
      | [u] => [NetCall.single u]
      | us => [NetCall.batch us] := by
  cases locations with
  | nil => rfl
  | cons a as =>
    rcases hnu : (process_loop t (a :: as)).2 with _ | ⟨u, _ | ⟨v, us⟩⟩ <;>
      simp [process_locations, hnu]

/-! Sample data used by witnesses. -/

/-- A sample observation for device `"A"`. -/
def obsA : Observation :=
  { deviceId := "A", latitude := 1, longitude := 2, timestamp := 1000
    isoTime := "2021-01-01T00:00:01" }

/-- A sample observation for device `"B"`. -/
def obsB : Observation :=
  { deviceId := "B", latitude := 3, longitude := 4, timestamp := 2000
    isoTime := "2021-01-01T00:00:02" }

/-- An older observation for device `"A"` (timestamp 500 < 1000). -/
def obsA0 : Observation :=
  { deviceId := "A", latitude := 5, longitude := 6, timestamp := 500
    isoTime := "2021-01-01T00:00:00" }

/-- A fresh client's state: no snapshot cursor yet, empty cursor table. -/
def client0 : ClientState := { last_mtime := none, last_seen := fun _ => 0 }

/-- A client that has already recorded mtime 0. -/
def clientNoop : ClientState := { last_mtime := some 0, last_seen := fun _ => 0 }

/-- A 200 batch response body with a truthy `success` flag but missing
`processed` and `newLocations` keys. -/
def badBatchBody : BatchBody := { success := some true, processed := none, newLocations := none }

/-! Claims. -/

/-- C1: for every observation presented to the change detector in source
order, if its timestamp is strictly greater than the cursor-table entry for
its device (the table defaults absent devices to 0, being the constant-0 map
extended only by writes) it is classified new — its payload is emitted — and
the cursor entry for that device is immediately set to that timestamp, so
the remaining observations are classified against the updated table; if its
timestamp is equal to or less than the entry it is classified stale and
discarded, with no change to the cursor table. -/
theorem C1_change_detector_step (t : Cursor) (o : Observation) (rest : List Observation) :
    (t o.deviceId < o.timestamp →
       process_loop t (o :: rest) =
         ((process_loop (updateCursor t o.deviceId o.timestamp) rest).1,
          payloadOf o :: (process_loop (updateCursor t o.deviceId o.timestamp) rest).2) ∧
       updateCursor t o.deviceId o.timestamp o.deviceId = o.timestamp) ∧
    (o.timestamp ≤ t o.deviceId →
       process_loop t (o :: rest) = process_loop t rest) := by
  constructor
  · intro h
    refine ⟨?_, by simp [updateCursor]⟩
    rw [process_loop_cons, if_pos h]
  · intro h
    rw [process_loop_cons, if_neg (not_lt.mpr h)]

/-- Witness for C1 at concrete inputs: `obsA` (timestamp 1000) against the
empty table is classified new with the cursor set to 1000; `obsA0`
(timestamp 500) against that updated table is classified stale. -/
theorem C1_change_detector_step_witness :
    ((fun _ => (0 : Int)) obsA.deviceId < obsA.timestamp ∧
       (process_loop (fun _ => (0 : Int)) [obsA] =
          ((process_loop (updateCursor (fun _ => (0 : Int)) obsA.deviceId obsA.timestamp) []).1,
           payloadOf obsA ::
             (process_loop (updateCursor (fun _ => (0 : Int)) obsA.deviceId obsA.timestamp) []).2) ∧
        updateCursor (fun _ => (0 : Int)) obsA.deviceId obsA.timestamp obsA.deviceId =
          obsA.timestamp)) ∧
    (obsA0.timestamp ≤ updateCursor (fun _ => (0 : Int)) obsA.deviceId obsA.timestamp obsA0.deviceId ∧
       process_loop (updateCursor (fun _ => (0 : Int)) obsA.deviceId obsA.timestamp) [obsA0] =
         process_loop (updateCursor (fun _ => (0 : Int)) obsA.deviceId obsA.timestamp) []) :=
  ⟨⟨by decide, (C1_change_detector_step (fun _ => (0 : Int)) obsA []).1 (by decide)⟩,
   ⟨by decide,
    (C1_change_detector_step (updateCursor (fun _ => (0 : Int)) obsA.deviceId obsA.timestamp)
        obsA0 []).2 (by decide)⟩⟩

/-- C2: for every input to the delivery step of `process_locations`: an empty
new-observation set issues no network call; exactly one new observation uses
the single-update path; more than one uses the batch path carrying the full
list in one request. -/
theorem C2_batching (t : Cursor) (locations : List Observation)
    (sr : HttpResult SingleBody) (br : HttpResult BatchBody) :
    ((process_loop t locations).2 = [] →
       (process_locations t locations sr br).calls = []) ∧
    (∀ u, (process_loop t locations).2 = [u] →
       (process_locations t locations sr br).calls = [NetCall.single u]) ∧
    (1 < (process_loop t locations).2.length →
       (process_locations t locations sr br).calls =
         [NetCall.batch (process_loop t locations).2]) := by
  have hcalls := process_locations_calls t locations sr br
  refine ⟨?_, ?_, ?_⟩
  · intro h
    rw [hcalls, h]
  · intro u h
    rw [hcalls, h]
  · intro h
    rcases hnu : (process_loop t locations).2 with _ | ⟨u, _ | ⟨v, us⟩⟩
    · rw [hnu] at h; simp at h
    · rw [hnu] at h; simp at h
    · rw [hcalls, hnu]

/-- Witness for C2 at concrete inputs: no new observations → no call, one →
single path, two → batch path with both payloads. -/
theorem C2_batching_witness :
    (process_locations (fun _ => (0 : Int)) [] HttpResult.exc HttpResult.exc).calls = [] ∧
    (process_locations (fun _ => (0 : Int)) [obsA] HttpResult.exc HttpResult.exc).calls =
      [NetCall.single (payloadOf obsA)] ∧
    (process_locations (fun _ => (0 : Int)) [obsA, obsB] HttpResult.exc HttpResult.exc).calls =
      [NetCall.batch [payloadOf obsA, payloadOf obsB]] :=
  ⟨(C2_batching (fun _ => (0 : Int)) [] HttpResult.exc HttpResult.exc).1 (by decide),
   (C2_batching (fun _ => (0 : Int)) [obsA] HttpResult.exc HttpResult.exc).2.1
     (payloadOf obsA) (by decide),
   (C2_batching (fun _ => (0 : Int)) [obsA, obsB] HttpResult.exc HttpResult.exc).2.2
     (by decide)⟩

/-- C3: a single-observation delivery is classified from the server response
exactly as the claim states, with the code's `Optional[bool]` encoding the
outcomes — `some true` = Stored, `some false` = Duplicate, `none` = Failed:
HTTP 200 with `success=true, isNew=true` yields Stored; 200 with
`success=true, isNew=false` yields Duplicate; a non-truthy `success` flag, a
non-200 status, an unparsable body, and an unreachable server each yield
Failed. -/
theorem C3_single_outcome (status : Nat) (b : SingleBody) :
    send_location_update (.resp 200 (some { success := some true, isNew := some true })) =
      some true ∧
    send_location_update (.resp 200 (some { success := some true, isNew := some false })) =
      some false ∧
    (b.success ≠ some true →
       send_location_update (.resp 200 (some b)) = none) ∧
    (status ≠ 200 → ∀ body, send_location_update (.resp status body) = none) ∧
    send_location_update (.resp 200 none) = none ∧
    send_location_update (HttpResult.exc : HttpResult SingleBody) = none := by
  refine ⟨rfl, rfl, ?_, ?_, rfl, rfl⟩
  · intro h
    have hs : b.success.getD false = false := by
      rcases hb : b.success with _ | tv
      · rfl
      · cases tv
        · rfl
        · exact absurd hb h
    simp [send_location_update, hs]
  · intro h body
    simp [send_location_update, h]

/-- Witness for C3 at concrete inputs: a rejected update (`success=false`)
and a 404 both yield Failed (`none`). -/
theorem C3_single_outcome_witness :
    send_location_update (.resp 200 (some { success := some false, isNew := none })) = none ∧
    send_location_update (.resp 404 (none : Option SingleBody)) = none :=
  ⟨(C3_single_outcome 404 { success := some false, isNew := none }).2.2.1 (by decide),
   (C3_single_outcome 404 { success := some false, isNew := none }).2.2.2.1
     (by decide) none⟩

/-- C4 counterexample: the claim asserts that any successful cycle —
including a no-op cycle where the source is unchanged — resets the
consecutive-failure counter to zero. In the code a no-op cycle makes
`run_once` return `False`, and `consecutive_errors` is reset only when it
returns `True`. Concretely: after two cycle exceptions the counter is 2; a
no-op cycle (mtime 0 unchanged) leaves it at 2 instead of resetting it. -/
theorem C4_counterexample :
    (run_continuous { client := clientNoop, consecutive_errors := 0 }
        [CycleEvent.raised, CycleEvent.raised,
         CycleEvent.run (.ok 0) (.ok []) HttpResult.exc HttpResult.exc]).consecutive_errors = 2 ∧
    (run_continuous { client := clientNoop, consecutive_errors := 0 }
        [CycleEvent.raised, CycleEvent.raised,
         CycleEvent.run (.ok 0) (.ok []) HttpResult.exc HttpResult.exc]).consecutive_errors ≠ 0 :=
  ⟨rfl, by decide⟩

/-- C4 (amended): in the poll loop the consecutive-failure counter is
incremented on any exception escaping the cycle body, is reset to zero only
by a cycle in which `run_once` returns `True` (the cache marker was newly
observed or advanced and processing completed), is left unchanged by a
completed cycle returning `False` — in particular a no-op cycle does NOT
reset it — and when it reaches the threshold of 5 the loop stops. -/
theorem C4_failure_accounting (s : LoopState) (mt : MtimeResult) (f : FetchResult)
    (sr : HttpResult SingleBody) (br : HttpResult BatchBody) :
    loopStep s CycleEvent.raised =
      ({ s with consecutive_errors := s.consecutive_errors + 1 },
       decide (s.consecutive_errors + 1 < max_consecutive_errors)) ∧
    ((run_once s.client mt f sr br).success = true →
       (loopStep s (.run mt f sr br)).1.consecutive_errors = 0 ∧
       (loopStep s (.run mt f sr br)).2 = true) ∧
    ((run_once s.client mt f sr br).success = false →
       (loopStep s (.run mt f sr br)).1.consecutive_errors = s.consecutive_errors ∧
       (loopStep s (.run mt f sr br)).2 = true) ∧
    (max_consecutive_errors ≤ s.consecutive_errors + 1 →
       ∀ rest, run_continuous s (CycleEvent.raised :: rest) =
         { s with consecutive_errors := s.consecutive_errors + 1 }) := by
  refine ⟨rfl, ?_, ?_, ?_⟩
  · intro h
    exact ⟨by simp [loopStep, h], rfl⟩
  · intro h
    exact ⟨by simp [loopStep, h], rfl⟩
  · intro h rest
    have hc : decide (s.consecutive_errors + 1 < max_consecutive_errors) = false :=
      decide_eq_false_iff_not.mpr (not_lt.mpr h)
    simp [run_continuous, loopStep, hc]

/-- Witness for C4 at concrete inputs: a cycle whose marker advanced resets a
counter of 3 to zero; a no-op cycle keeps a counter of 3; from a counter of
4 a cycle exception stops the loop at 5. -/
theorem C4_failure_accounting_witness :
    ((loopStep { client := client0, consecutive_errors := 3 }
        (.run (.ok 1) (.ok []) HttpResult.exc HttpResult.exc)).1.consecutive_errors = 0 ∧
     (loopStep { client := client0, consecutive_errors := 3 }
        (.run (.ok 1) (.ok []) HttpResult.exc HttpResult.exc)).2 = true) ∧
    ((loopStep { client := clientNoop, consecutive_errors := 3 }
        (.run (.ok 0) (.ok []) HttpResult.exc HttpResult.exc)).1.consecutive_errors = 3 ∧
     (loopStep { client := clientNoop, consecutive_errors := 3 }
        (.run (.ok 0) (.ok []) HttpResult.exc HttpResult.exc)).2 = true) ∧
    run_continuous { client := client0, consecutive_errors := 4 } [CycleEvent.raised] =
      { client := client0, consecutive_errors := 5 } :=
  ⟨(C4_failure_accounting { client := client0, consecutive_errors := 3 }
      (.ok 1) (.ok []) HttpResult.exc HttpResult.exc).2.1 rfl,
   (C4_failure_accounting { client := clientNoop, consecutive_errors := 3 }
      (.ok 0) (.ok []) HttpResult.exc HttpResult.exc).2.2.1 rfl,
   (C4_failure_accounting { client := client0, consecutive_errors := 4 }
      (.ok 0) (.ok []) HttpResult.exc HttpResult.exc).2.2.2 (by decide) []⟩

/-- C5 counterexample: the claim asserts that a caught source failure makes
the consecutive-failure counter increment by 1. In the code the cycle
returns `True` (the marker advanced, `fetch_locations` swallowed the error
and yielded `[]`), so a counter of 2 is reset to 0 — it does not become
3. -/
theorem C5_counterexample :
    (loopStep { client := client0, consecutive_errors := 2 }
        (.run (.ok 1) FetchResult.permissionError HttpResult.exc
          HttpResult.exc)).1.consecutive_errors = 0 ∧
    (loopStep { client := client0, consecutive_errors := 2 }
        (.run (.ok 1) FetchResult.permissionError HttpResult.exc
          HttpResult.exc)).1.consecutive_errors ≠ 3 :=
  ⟨rfl, by decide⟩

/-- C5 (amended): when the observation source fails with file-not-found,
permission, or JSON-parse errors, the error is caught rather than
propagated and the cycle proceeds with an empty observation list, issuing no
request, and the loop continues sleeping and retrying; however the cycle
counts as successful — `run_once` returns `True` when the marker advanced —
so the consecutive-failure counter is reset to 0, not incremented. -/
theorem C5_source_errors (s : LoopState) (m : Int) (f : FetchResult)
    (sr : HttpResult SingleBody) (br : HttpResult BatchBody)
    (hf : f = FetchResult.fileNotFound ∨ f = FetchResult.permissionError ∨
      f = FetchResult.jsonDecodeError)
    (hm : mtimeAdvanced s.client.last_mtime m = true) :
    fetch_locations f = [] ∧
    (run_once s.client (.ok m) f sr br).success = true ∧
    (run_once s.client (.ok m) f sr br).calls = [] ∧
    (loopStep s (.run (.ok m) f sr br)).1.consecutive_errors = 0 ∧
    (loopStep s (.run (.ok m) f sr br)).2 = true := by
  have hfe : fetch_locations f = [] := by
    rcases hf with rfl | rfl | rfl <;> rfl
  have hro : (run_once s.client (.ok m) f sr br).success = true := by
    simp [run_once, hm, hfe, process_locations]
  refine ⟨hfe, hro, ?_, ?_, rfl⟩
  · simp [run_once, hm, hfe, process_locations]
  · simp [loopStep, hro]

/-- Witness for C5 at concrete inputs: a permission failure with an advanced
marker and a prior counter of 2. -/
theorem C5_source_errors_witness :
    ((FetchResult.permissionError = FetchResult.fileNotFound ∨
        FetchResult.permissionError = FetchResult.permissionError ∨
        FetchResult.permissionError = FetchResult.jsonDecodeError) ∧
      mtimeAdvanced client0.last_mtime 1 = true) ∧
    (fetch_locations FetchResult.permissionError = [] ∧
      (run_once client0 (.ok 1) FetchResult.permissionError HttpResult.exc
          HttpResult.exc).success = true ∧
      (run_once client0 (.ok 1) FetchResult.permissionError HttpResult.exc
          HttpResult.exc).calls = [] ∧
      (loopStep { client := client0, consecutive_errors := 2 }
          (.run (.ok 1) FetchResult.permissionError HttpResult.exc
            HttpResult.exc)).1.consecutive_errors = 0 ∧
      (loopStep { client := client0, consecutive_errors := 2 }
          (.run (.ok 1) FetchResult.permissionError HttpResult.exc
            HttpResult.exc)).2 = true) :=
  ⟨⟨by decide, rfl⟩,
   C5_source_errors { client := client0, consecutive_errors := 2 } 1
     FetchResult.permissionError HttpResult.exc HttpResult.exc
     (by decide) rfl⟩

/-- C6: the cursor-table entry of every device is monotonically
non-decreasing across the classification loop; an entry changes only because
some observation for that device was classified new (strictly newer than the
entry the table held); and once the cursor for a device holds `t2`, an
observation for that device with timestamp `t1 < t2` is classified stale
(dropped, table untouched). -/
theorem C6_cursor_invariant (t : Cursor) (obs : List Observation) (d : String)
    (o : Observation) (rest : List Observation) :
    t d ≤ (process_loop t obs).1 d ∧
    ((process_loop t obs).1 d = t d ∨
       ∃ a ∈ obs, a.deviceId = d ∧ (process_loop t obs).1 d = a.timestamp ∧
         t d < a.timestamp) ∧
    (∀ t1 t2 : Int, t1 < t2 → t o.deviceId = t2 → o.timestamp = t1 →
       process_loop t (o :: rest) = process_loop t rest) := by
  refine ⟨process_loop_monotone obs t d, process_loop_update_cases obs t d, ?_⟩
  intro t1 t2 hlt hcur hts
  rw [process_loop_cons, if_neg]
  rw [hcur, hts]
  exact not_lt.mpr (le_of_lt hlt)

/-- Witness for C6 at concrete inputs: with the cursor of device `"A"`
advanced to 1000, the older observation `obsA0` (timestamp 500) is
stale. -/
theorem C6_cursor_invariant_witness :
    (500 : Int) < 1000 ∧
    updateCursor (fun _ => (0 : Int)) "A" 1000 obsA0.deviceId = 1000 ∧
    obsA0.timestamp = 500 ∧
    process_loop (updateCursor (fun _ => (0 : Int)) "A" 1000) [obsA0] =
      process_loop (updateCursor (fun _ => (0 : Int)) "A" 1000) [] :=
  ⟨by decide, by decide, by decide,
   (C6_cursor_invariant (updateCursor (fun _ => (0 : Int)) "A" 1000) [] "A" obsA0 []).2.2
     500 1000 (by decide) (by decide) (by decide)⟩

/-- C7: within a cycle, the cursor table is fully advanced by the
classification loop before any delivery request is issued — the final table
equals the loop's table and neither the table nor the issued requests depend
on the delivery responses (in particular the table stays advanced when
delivery fails) — and every presented observation's timestamp is covered by
the final table, so presenting it again classifies it stale and it is never
retried. -/
theorem C7_cursor_before_delivery (t : Cursor) (locations : List Observation)
    (sr sr2 : HttpResult SingleBody) (br br2 : HttpResult BatchBody) :
    (process_locations t locations sr br).last_seen = (process_loop t locations).1 ∧
    (process_locations t locations sr br).last_seen =
      (process_locations t locations sr2 br2).last_seen ∧
    (process_locations t locations sr br).calls =
      (process_locations t locations sr2 br2).calls ∧
    (∀ o ∈ locations,
       o.timestamp ≤ (process_locations t locations sr br).last_seen o.deviceId ∧
       ∀ rest, process_loop (process_locations t locations sr br).last_seen (o :: rest) =
         process_loop (process_locations t locations sr br).last_seen rest) := by
  refine ⟨process_locations_last_seen t locations sr br, ?_, ?_, ?_⟩
  · rw [process_locations_last_seen t locations sr br,
      process_locations_last_seen t locations sr2 br2]
  · rw [process_locations_calls t locations sr br,
      process_locations_calls t locations sr2 br2]
  · intro o ho
    have hcov : o.timestamp ≤ (process_locations t locations sr br).last_seen o.deviceId := by
      rw [process_locations_last_seen t locations sr br]
      exact process_loop_covers locations t o ho
    refine ⟨hcov, ?_⟩
    intro rest
    rw [process_loop_cons, if_neg (not_lt.mpr hcov)]

/-- Witness for C7 at concrete inputs: delivering `obsA` against a failing
server (`exc` responses) still leaves the cursor at 1000, and re-presenting
`obsA` is stale. -/
theorem C7_cursor_before_delivery_witness :
    obsA ∈ [obsA] ∧
    obsA.timestamp ≤
      (process_locations (fun _ => (0 : Int)) [obsA] HttpResult.exc
          HttpResult.exc).last_seen obsA.deviceId ∧
    ∀ rest,
      process_loop
          (process_locations (fun _ => (0 : Int)) [obsA] HttpResult.exc
            HttpResult.exc).last_seen (obsA :: rest) =
        process_loop
          (process_locations (fun _ => (0 : Int)) [obsA] HttpResult.exc
            HttpResult.exc).last_seen rest :=
  ⟨List.mem_cons_self _ _,
   (C7_cursor_before_delivery (fun _ => (0 : Int)) [obsA] HttpResult.exc HttpResult.exc
       HttpResult.exc HttpResult.exc).2.2.2 obsA (List.mem_cons_self _ _)⟩

/-- C8: the claim says both delivery paths issue their request with a bounded
30-second timeout. The constructor does store 30 into `session.timeout`
(line 42), but the `requests` library never consults an ad-hoc `timeout`
attribute on a `Session`; only the per-call `timeout=` keyword applies, and
neither `send_location_update` (lines 124-128) nor `send_batch_update`
(lines 149-153) passes one. The effective timeout of both delivery requests
is therefore unbounded (`none`), contradicting the evident intent of
line 42. -/
theorem C8_no_request_timeout :
    clientInitSession.timeoutAttr = some 30 ∧
    singleUpdateRequestTimeout = none ∧
    batchUpdateRequestTimeout = none ∧
    pairingRequestTimeout = some 30 :=
  ⟨rfl, rfl, rfl, rfl⟩

/-- C9: the pairing flow fails with no change to the persisted config or the
session token on a non-2xx status, an unparsable body, a body missing the
token (or an empty token), or a request exception; only a 200 response with
a non-empty token persists the credential (token and server written to the
config) and attaches it to the session immediately. -/
theorem C9_pairing (before : Option PairConfig) (beforeToken : Option String)
    (serverUrl : String) (status : Nat) (body : Option PairBody) :
    (¬ (200 ≤ status ∧ status < 300) →
       pairing_flow before beforeToken serverUrl (.resp status body) =
         { config := before, sessionToken := beforeToken }) ∧
    (pairing_flow before beforeToken serverUrl (.resp status none) =
       { config := before, sessionToken := beforeToken }) ∧
    (∀ b : PairBody, b.token = none ∨ b.token = some "" →
       pairing_flow before beforeToken serverUrl (.resp status (some b)) =
         { config := before, sessionToken := beforeToken }) ∧
    (pairing_flow before beforeToken serverUrl HttpResult.exc =
       { config := before, sessionToken := beforeToken }) ∧
    (∀ tok : String, tok ≠ "" →
       pairing_flow before beforeToken serverUrl (.resp 200 (some { token := some tok })) =
         { config := some { token := some tok, server := serverUrl },
           sessionToken := some tok }) := by
  refine ⟨?_, ?_, ?_, rfl, ?_⟩
  · intro h
    have hs : status ≠ 200 := by
      intro he
      subst he
      exact h ⟨le_refl _, by norm_num⟩
    simp [pairing_flow, pairing_claim, hs]
  · by_cases hs : status = 200 <;> simp [pairing_flow, pairing_claim, hs]
  · intro b hb
    by_cases hs : status = 200
    · subst hs
      rcases hb with hb | hb <;> simp [pairing_flow, pairing_claim, hb]
    · simp [pairing_flow, pairing_claim, hs]
  · intro tok ht
    simp [pairing_flow, pairing_claim, ht]

/-- Witness for C9 at concrete inputs: a 401 response leaves the config and
session token untouched; a 200 response carrying token `"tok"` writes the
config and attaches the token. -/
theorem C9_pairing_witness :
    ¬ ((200 : Nat) ≤ 401 ∧ (401 : Nat) < 300) ∧
    pairing_flow (some { token := none, server := "s" }) none "s"
        (.resp 401 (some { token := some "tok" })) =
      { config := some { token := none, server := "s" }, sessionToken := none } ∧
    ("tok" : String) ≠ "" ∧
    pairing_flow (some { token := none, server := "s" }) none "s"
        (.resp 200 (some { token := some "tok" })) =
      { config := some { token := some "tok", server := "s" },
        sessionToken := some "tok" } :=
  ⟨by decide,
   (C9_pairing (some { token := none, server := "s" }) none "s" 401
       (some { token := some "tok" })).1 (by decide),
   by decide,
   (C9_pairing (some { token := none, server := "s" }) none "s" 401
       (some { token := some "tok" })).2.2.2.2 "tok" (by decide)⟩

/-- C10 counterexample: the claim says `run_once` returns `True` exactly when
the cache marker is newly observed or strictly greater, regardless of how
delivery fares. With a fresh client (marker newly observed) and two new
observations, a batch response of HTTP 200 with `success=true` but missing
`processed`/`newLocations` keys makes the log f-string at line 210 raise
`KeyError`, which the generic handler in `run_once` turns into `False`. -/
theorem C10_counterexample :
    client0.last_mtime = none ∧
    (run_once client0 (.ok 1) (.ok [obsA, obsB]) HttpResult.exc
        (.resp 200 (some badBatchBody))).success = false :=
  ⟨rfl, rfl⟩

/-- C10 (amended): `run_once` never propagates an exception — it is total
over every modeled source, mtime and delivery outcome, its `except`
clauses folding each internal error into a returned boolean — and it
returns `True` exactly when the cache marker is newly observed or strictly
greater than the stored marker AND processing completed without an internal
exception reaching the handler (the one such exception being the `KeyError`
raised while logging a 200 batch response whose `success` is truthy but
which lacks the `processed` or `newLocations` key); it returns `False`
otherwise. -/
theorem C10_run_once_result (st : ClientState) (mt : MtimeResult) (f : FetchResult)
    (sr : HttpResult SingleBody) (br : HttpResult BatchBody) :
    (run_once st mt f sr br).success = true ↔
      ∃ m, mt = MtimeResult.ok m ∧ mtimeAdvanced st.last_mtime m = true ∧
        (process_locations st.last_seen (fetch_locations f) sr br).raised = false := by
  cases mt with
  | fileNotFound => simp [run_once]
  | otherError => simp [run_once]
  | ok m =>
    by_cases hm : mtimeAdvanced st.last_mtime m
    · simp [run_once, hm]
    · simp [run_once, hm]

/-- Witness for C10 at a concrete input: a fresh client with an empty fetch
returns `True`, via the right-to-left direction. -/
theorem C10_run_once_result_witness :
    (run_once client0 (.ok 1) (.ok []) HttpResult.exc HttpResult.exc).success = true :=
  (C10_run_once_result client0 (.ok 1) (.ok []) HttpResult.exc HttpResult.exc).mpr
    ⟨1, rfl, rfl, rfl⟩

end FindMyCat
